import Mathlib

/-!
Verification development for the `blogpost` repository (a Django blog engine).

The Python source is embedded shallowly: ORM rows become Lean structures,
database tables become lists of rows, view functions become pure functions
from an explicit request/state to a response/state pair, and library calls
whose outcome the code merely branches on (HTTP fetches, TOTP verification)
become explicit oracle arguments.  Machine integers do not overflow in the
modelled code paths (Python ints are unbounded), so counters are `Nat`.

Sections follow the source files:
  * `security/utils.py`   — `sanitize_html` (bleach.clean with an allow-list,
    strip=True: disallowed tags are dropped, their children kept).
  * `blog/models.py`      — `Post`, `Tag`, `PostLike` and their `save`.
  * `blog/views.py`       — `post_list`, `post_detail`, `post_edit`,
    `post_like`, `fetch_link_preview_api`.
  * `blog/utils.py`       — `fetch_link_preview`.
  * `accounts/views.py`   — `login_view`, `otp_verify_view`.
  * `security/middleware.py` — `RateLimitMiddleware`.
-/

/-! ## HTML content and sanitization (`security/utils.py`) -/

/-- Parsed HTML content: text nodes and element nodes with attributes and
children.  `bleach.clean` operates on the parse tree of the stored string;
we embed rich-text content directly as its parse tree. -/
inductive HtmlNode where
  | text (s : String)
  | tag (name : String) (attrs : List (String × String)) (children : List HtmlNode)
deriving Repr

/-- Structural equality test on node forests (equality helper for the nested
inductive). -/
def beqNodes : List HtmlNode → List HtmlNode → Bool
  | [], [] => true
  | .text s :: r, .text s' :: r' => s == s' && beqNodes r r'
  | .tag n a c :: r, .tag n' a' c' :: r' =>
      n == n' && a == a' && beqNodes c c' && beqNodes r r'
  | _, _ => false

theorem beqNodes_iff (a b : List HtmlNode) : beqNodes a b = true ↔ a = b := by
  induction a, b using beqNodes.induct
  case case1 => simp [beqNodes]
  case case2 => simp_all [beqNodes]
  case case3 => simp_all [beqNodes]; tauto
  case case4 a b h1 h2 h3 =>
    match a, b with
    | [], [] => exact absurd rfl (h1 rfl)
    | .text s :: r, .text s' :: r' => exact absurd rfl (h2 s r s' r' rfl)
    | .tag n aa c :: r, .tag n' a' c' :: r' => exact absurd rfl (h3 n aa c r n' a' c' r' rfl)
    | [], x :: xs => simp [beqNodes]
    | x :: xs, [] => cases x <;> simp [beqNodes]
    | .text s :: r, .tag n aa c :: r' => simp [beqNodes]
    | .tag n aa c :: r, .text s :: r' => simp [beqNodes]

instance : DecidableEq (List HtmlNode) :=
  fun a b => decidable_of_iff _ (beqNodes_iff a b)

instance : DecidableEq HtmlNode :=
  fun a b => decidable_of_iff ([a] = [b]) (by simp)

/-- `allowed_tags` of `sanitize_html` in `security/utils.py`. -/
def allowed_tags : List String :=
  ["p", "br", "strong", "em", "u", "h1", "h2", "h3", "ul", "ol", "li", "a", "img"]

/-- `allowed_attrs` of `sanitize_html`: `href`/`title` on `a`, `src`/`alt` on
`img`, nothing elsewhere. -/
def allowed_attrs (t : String) : List String :=
  if t = "a" then ["href", "title"]
  else if t = "img" then ["src", "alt"]
  else []

/-- `bleach.clean(content, tags=allowed_tags, attributes=allowed_attrs,
strip=True)`: an allowed tag is kept with its attributes filtered to the
allow-list; a disallowed tag is stripped, its (cleaned) children spliced in
its place. -/
def clean_nodes : List HtmlNode → List HtmlNode
  | [] => []
  | .text s :: rest => .text s :: clean_nodes rest
  | .tag name attrs children :: rest =>
      if name ∈ allowed_tags then
        .tag name (attrs.filter (fun a => a.1 ∈ allowed_attrs name)) (clean_nodes children)
          :: clean_nodes rest
      else
        clean_nodes children ++ clean_nodes rest

/-- `sanitize_html` from `security/utils.py`. -/
def sanitize_html (content : List HtmlNode) : List HtmlNode :=
  clean_nodes content

/-- Every tag in the forest is in the allow-list and carries only allowed
attributes. -/
def nodes_ok : List HtmlNode → Bool
  | [] => true
  | .text _ :: rest => nodes_ok rest
  | .tag name attrs children :: rest =>
      decide (name ∈ allowed_tags)
        && attrs.all (fun a => decide (a.1 ∈ allowed_attrs name))
        && nodes_ok children
        && nodes_ok rest

/-- Model of `django.utils.text.slugify` (library call in the `save`
methods): lowercase, keep alphanumerics and hyphens, spaces become
hyphens.  No claim depends on its exact output. -/
def slugify (s : String) : String :=
  String.mk (((s.data.map Char.toLower).filter
    (fun c => c.isAlphanum || c = '-' || c = ' ')).map
    (fun c => if c = ' ' then '-' else c))

/-! ## `Post` and `Post.save` (`blog/models.py`) -/

/-- A `Post` row.  `content` is the parsed form of the stored rich text;
timestamps are seconds as `Nat`; nullable columns are `Option`. -/
structure Post where
  id : Nat
  title : String
  slug : String
  author : Nat
  category : Option Nat
  content : List HtmlNode
  excerpt : String
  status : String
  featured_image : Option String
  video_link : Option String
  link_url : Option String
  link_title : Option String
  link_description : Option String
  link_image : Option String
  link_video : Option String
  meta_description : String
  views : Nat
  published_at : Option Nat
deriving Repr, DecidableEq

/-- `Post.save` (`blog/models.py` lines 99-107): default the slug from the
title, sanitize non-empty content, stamp `published_at` on first publish.
(The `super().save()` row write is done by the callers' state updates.) -/
def post_save (now : Nat) (p : Post) : Post :=
  let p1 := if p.slug = "" then { p with slug := slugify p.title } else p
  let p2 := if p1.content.isEmpty then p1 else { p1 with content := sanitize_html p1.content }
  if p2.status = "published" ∧ p2.published_at = none then
    { p2 with published_at := some now }
  else p2

/-! ## `Tag` and `Tag.save` (`blog/models.py`) -/

/-- Python `str.lower()` on the characters of the name (basic-latin case
mapping, as in the stored ASCII tag names). -/
def py_lower (s : List Char) : List Char := s.map Char.toLower

/-- Python `str.replace(c, "")`: remove every occurrence of the character. -/
def py_remove_char (c : Char) (s : List Char) : List Char :=
  s.filter (fun a => a ≠ c)

/-- A `Tag` row; the name is kept at character granularity for the
normalization reasoning. -/
structure Tag where
  name : List Char
  slug : List Char
deriving Repr, DecidableEq

/-- `self.name.lower().replace(" ", "").replace("#", "")` from `Tag.save`. -/
def tag_normalize (s : List Char) : List Char :=
  py_remove_char '#' (py_remove_char ' ' (py_lower s))

/-- `Tag.save` (`blog/models.py` lines 46-51): default the slug, then
normalize the name. -/
def tag_save (t : Tag) : Tag :=
  let t1 := if t.slug = [] then { t with slug := (slugify (String.mk t.name)).data } else t
  { t1 with name := tag_normalize t1.name }

/-! ## Link previews (`blog/utils.py`) -/

/-- The metadata-bearing elements of a fetched page, as found by
`BeautifulSoup`: `some s` means the tag is present with content `s`
(`tag.get('content', '')` yields `""` when the attribute is missing). -/
structure PageMeta where
  og_title : Option String
  og_description : Option String
  og_image : Option String
  og_video : Option String
  twitter_title : Option String
  twitter_description : Option String
  twitter_image : Option String
  title_tag : Option String
  meta_description : Option String
deriving Repr, DecidableEq

/-- The outcome of `requests.get(url, ...)` inside the `try` block: a parsed
page, or one of the exception classes the `except` clauses catch. -/
inductive FetchOutcome where
  | ok (page : PageMeta)
  | timeout
  | requestError
  | otherError
deriving Repr, DecidableEq

/-- The `metadata` dict built by `fetch_link_preview`. -/
structure LinkMetadata where
  title : Option String
  description : Option String
  image : Option String
  video : Option String
  url : String
deriving Repr, DecidableEq

/-- Python truthiness of a metadata field (`if not metadata['title']`):
`None` and `""` are falsy. -/
def truthy : Option String → Bool
  | none => false
  | some s => !s.isEmpty

/-- Model of `urllib.parse.urljoin` used to resolve a relative image URL;
no claim depends on its exact output. -/
def urljoin (base rel : String) : String := base ++ rel

/-- `fetch_link_preview` from `blog/utils.py`: on a fetched page, build the
metadata dict with Open Graph, then Twitter-card, then plain-HTML fallbacks;
on `Timeout`, `RequestException` or any other exception, log and return
`None`. -/
def fetch_link_preview (url : String) (outcome : FetchOutcome) : Option LinkMetadata :=
  match outcome with
  | .timeout => none
  | .requestError => none
  | .otherError => none
  | .ok page =>
      let title1 := if truthy page.og_title then page.og_title else page.twitter_title
      let title := if truthy title1 then title1 else page.title_tag
      let desc1 := if truthy page.og_description then page.og_description
                   else page.twitter_description
      let desc := if truthy desc1 then desc1 else page.meta_description
      let img1 := if truthy page.og_image then page.og_image else page.twitter_image
      let img := if truthy img1 then
          (match img1 with
           | some s =>
               if s.startsWith "http://" || s.startsWith "https://" then some s
               else some (urljoin url s)
           | none => none)
        else img1
      some { title := title
             description := desc
             image := img
             video := page.og_video
             url := url }

/-- The response of `fetch_link_preview_api`. -/
inductive ApiResponse where
  | jsonSuccess (data : LinkMetadata)
  | jsonError (status : Nat)
deriving Repr, DecidableEq

/-- Python `str.strip()`: drop leading and trailing whitespace. -/
def py_strip (s : String) : String :=
  String.mk (((s.data.dropWhile Char.isWhitespace).reverse.dropWhile
    Char.isWhitespace).reverse)

/-- `fetch_link_preview_api` from `blog/views.py`: strip the submitted URL,
reject an empty one with a 400 JSON error, otherwise fetch and answer with
a success body or a 400 JSON error. -/
def fetch_link_preview_api (rawUrl : String) (outcome : FetchOutcome) : ApiResponse :=
  let url := py_strip rawUrl
  if url.isEmpty then .jsonError 400
  else
    match fetch_link_preview url outcome with
    | some m => .jsonSuccess m
    | none => .jsonError 400

/-! ## The blog tables and views (`blog/views.py`) -/

/-- The tables the blog views touch: `Post` rows and `PostLike` rows, a like
row being its `(post_id, user_id)` pair. -/
structure BlogDB where
  posts : List Post
  likes : List (Nat × Nat)
deriving Repr, DecidableEq

/-- Django `icontains`: case-insensitive substring test. -/
def icontains (hay pat : String) : Bool :=
  decide ((pat.data.map Char.toLower) <:+: (hay.data.map Char.toLower))

/-- The text of a node forest (what `content__icontains` searches). -/
def nodes_text : List HtmlNode → String
  | [] => ""
  | .text s :: rest => s ++ nodes_text rest
  | .tag _ _ children :: rest => nodes_text children ++ nodes_text rest

/-- `post_list`: published posts, optionally filtered by the search query
against title or content. -/
def post_list (db : BlogDB) (search_query : String) : List Post :=
  let posts := db.posts.filter (fun p => p.status == "published")
  if search_query.isEmpty then posts
  else posts.filter
    (fun p => icontains p.title search_query || icontains (nodes_text p.content) search_query)

/-- `get_object_or_404(Post..., slug=slug, status='published')`. -/
def get_published (db : BlogDB) (slug : String) : Option Post :=
  db.posts.find? (fun p => p.slug == slug && p.status == "published")

/-- `get_object_or_404(Post, slug=slug)` (no status filter). -/
def get_post (db : BlogDB) (slug : String) : Option Post :=
  db.posts.find? (fun p => p.slug == slug)

/-- `post.save(update_fields=['views'])`: write only the `views` column of
this post's row back to the table. -/
def save_update_views (posts : List Post) (p : Post) : List Post :=
  posts.map (fun q => if q.id == p.id then { q with views := p.views } else q)

/-- `post.save()` with no field restriction: replace this post's row. -/
def save_row (posts : List Post) (p : Post) : List Post :=
  posts.map (fun q => if q.id == p.id then p else q)

/-- The response of `post_detail` to a GET. -/
inductive DetailResult where
  | notFound
  | page (post : Post)
deriving Repr, DecidableEq

/-- `post_detail` on a GET request: 404 unless a published post carries the
slug; otherwise bump `views` and persist only that field. -/
def post_detail (db : BlogDB) (slug : String) : DetailResult × BlogDB :=
  match get_published db slug with
  | none => (.notFound, db)
  | some p =>
      let p' := { p with views := p.views + 1 }
      (.page p', { db with posts := save_update_views db.posts p' })

/-- `post_like`: 404 (`none`) unless a published post carries the slug;
`get_or_create` the like row for `(post, user)`, and when it already
existed, delete it.  Returns the `liked` flag of the JSON body and the new
state. -/
def post_like (db : BlogDB) (slug : String) (uid : Nat) : Option (Bool × BlogDB) :=
  match get_published db slug with
  | none => none
  | some p =>
      if (p.id, uid) ∈ db.likes then
        some (false, { db with likes := db.likes.erase (p.id, uid) })
      else
        some (true, { db with likes := db.likes ++ [(p.id, uid)] })

/-- The cleaned data of a valid `PostForm` (its `Meta.fields`; the
tags/SEO extras that no claim touches are elided). -/
structure PostFormData where
  title : String
  category : Option Nat
  excerpt : String
  content : List HtmlNode
  featured_image : Option String
  video_link : Option String
  link_url : Option String
  link_title : Option String
  link_description : Option String
  link_image : Option String
  meta_description : String
  status : String
deriving Repr, DecidableEq

/-- `form.save(commit=False)` with `instance=post`: write the form's fields
onto the instance, keeping id, slug, author, views, `link_video` and
`published_at`. -/
def apply_form (f : PostFormData) (p : Post) : Post :=
  { p with
    title := f.title
    category := f.category
    excerpt := f.excerpt
    content := f.content
    featured_image := f.featured_image
    video_link := f.video_link
    link_url := f.link_url
    link_title := f.link_title
    link_description := f.link_description
    link_image := f.link_image
    meta_description := f.meta_description
    status := f.status }

/-- The link-preview backfill in `post_create`/`post_edit`: when a link URL
is set and no preview field was provided by hand, fetch metadata and copy
it in. -/
def backfill_link_preview (p : Post) (outcome : FetchOutcome) : Post :=
  match p.link_url with
  | none => p
  | some u =>
      if truthy p.link_url && !truthy p.link_title && !truthy p.link_description
          && !truthy p.link_image then
        match fetch_link_preview u outcome with
        | some m => { p with
                      link_title := m.title
                      link_description := m.description
                      link_image := m.image
                      link_video := m.video }
        | none => p
      else p

/-- The response of `post_edit`. -/
inductive EditResult where
  | notFound
  | forbidden
  | redirected (slug : String)
  | formPage
deriving Repr, DecidableEq

/-- `post_edit`: look the post up by slug alone, reject a requester who is
neither the author nor staff with 403, and on a valid POST apply the form,
backfill the link preview, run `Post.save` and persist the row.  `form` is
`some` cleaned data exactly when `form.is_valid()`. -/
def post_edit (now : Nat) (db : BlogDB) (slug : String) (uid : Nat) (is_staff : Bool)
    (is_post : Bool) (form : Option PostFormData) (outcome : FetchOutcome) :
    EditResult × BlogDB :=
  match get_post db slug with
  | none => (.notFound, db)
  | some post =>
      if post.author ≠ uid ∧ ¬is_staff then (.forbidden, db)
      else if is_post then
        match form with
        | some f =>
            let p1 := apply_form f post
            let p2 := backfill_link_preview p1 outcome
            let p3 := post_save now p2
            (.redirected p3.slug, { db with posts := save_row db.posts p3 })
        | none => (.formPage, db)
      else (.formPage, db)

/-! ## Login rate limiting and MFA (`accounts/views.py`,
`security/middleware.py`) -/

/-- The cache entry behind the key `login_attempts_<ip>` for one client IP:
a counter together with its expiry instant.  Times are seconds as `Nat`. -/
structure Cache where
  entry : Option (Nat × Nat)
deriving Repr, DecidableEq

/-- `cache.get(key, 0)` at time `now`: 0 when the entry is absent or has
expired. -/
def cache_get (now : Nat) (c : Cache) : Nat :=
  match c.entry with
  | none => 0
  | some (v, expiry) => if now < expiry then v else 0

/-- `cache.set(key, v, 300)` at time `now`: store `v` for 300 seconds. -/
def cache_set (now v : Nat) : Cache := ⟨some (v, now + 300)⟩

/-- `cache.delete(key)`. -/
def cache_delete : Cache := ⟨none⟩

/-- The result of `RateLimitMiddleware.__call__`: a 403 or the request
passed on with the updated counter. -/
inductive MwResult where
  | forbidden
  | pass (c : Cache)
deriving Repr, DecidableEq

/-- `RateLimitMiddleware` for one client IP (`security/middleware.py` lines
27-39): on a POST to the login URL, reject with 403 once the counter
reaches 5, otherwise bump it with a 300-second timeout. -/
def rate_limit_middleware (ratelimit_enable : Bool) (now : Nat)
    (is_login_post : Bool) (c : Cache) : MwResult :=
  if !ratelimit_enable then .pass c
  else if is_login_post then
    let attempts := cache_get now c
    if attempts ≥ 5 then .forbidden
    else .pass (cache_set now (attempts + 1))
  else .pass c

/-- What the login flow needs of a user row: the id, the profile's
`mfa_enabled` flag, `django_otp.user_has_device(user)`, and whether a
confirmed TOTP device exists. -/
structure AccountUser where
  id : Nat
  mfa_enabled : Bool
  has_device : Bool
  has_confirmed_device : Bool
deriving Repr, DecidableEq

/-- The response rendered or issued by `login_view`. -/
inductive LoginResponse where
  | redirectPostList
  | redirectOtpVerify
  | loginPageError
  | loginPage
deriving Repr, DecidableEq

/-- The per-IP session/auth state the two views thread through. -/
structure AuthState where
  cache : Cache
  pre_otp_user_id : Option Nat
  logged_in : Option Nat
deriving Repr, DecidableEq

/-- `login_view` (`accounts/views.py` lines 50-106) for one client IP.
`form_valid` is `form.is_valid()`; `auth` is the outcome of
`authenticate(username=..., password=...)` — `none` means the credentials
failed.  An already-authenticated request is redirected away; a POST is
rejected with an error once the cached counter reaches 5; a failed
authentication bumps the counter with a 300-second timeout; a successful
one either redirects to OTP verification (storing only the pre-OTP user
id) when the user has MFA, or logs in and clears the counter. -/
def login_view (now : Nat) (is_post form_valid : Bool) (auth : Option AccountUser)
    (st : AuthState) : LoginResponse × AuthState :=
  if st.logged_in.isSome then (.redirectPostList, st)
  else if is_post then
    let attempts := cache_get now st.cache
    if attempts ≥ 5 then (.loginPageError, st)
    else if form_valid then
      match auth with
      | some u =>
          if u.mfa_enabled || u.has_device then
            (.redirectOtpVerify, { st with pre_otp_user_id := some u.id })
          else
            (.redirectPostList, { st with
                                  cache := cache_delete
                                  logged_in := some u.id })
      | none =>
          (.loginPageError, { st with cache := cache_set now (attempts + 1) })
    else (.loginPageError, st)
  else (.loginPage, st)

/-- The response of `otp_verify_view`. -/
inductive OtpResponse where
  | redirectLogin
  | redirectPostList
  | otpPageError
  | otpPage
deriving Repr, DecidableEq

/-- `otp_verify_view` (`accounts/views.py` lines 109-140).  `users` is the
user table; `verify_ok` is the outcome of `device.verify_token(otp_token)`
on the user's first confirmed TOTP device.  The session login happens only
when a confirmed device exists and the token verifies. -/
def otp_verify_view (users : List AccountUser) (is_post form_valid verify_ok : Bool)
    (st : AuthState) : OtpResponse × AuthState :=
  match st.pre_otp_user_id with
  | none => (.redirectLogin, st)
  | some uid =>
      match users.find? (fun u => u.id == uid) with
      | none => (.redirectLogin, st)
      | some user =>
          if is_post && form_valid then
            if user.has_confirmed_device && verify_ok then
              (.redirectPostList, { st with
                                    logged_in := some user.id
                                    pre_otp_user_id := none })
            else (.otpPageError, st)
          else (.otpPage, st)

/-! ## Theorems -/

theorem nodes_ok_append (a b : List HtmlNode) :
    nodes_ok (a ++ b) = (nodes_ok a && nodes_ok b) := by
  induction a using nodes_ok.induct with
  | case1 => simp [nodes_ok]
  | case2 s rest ih => simp [nodes_ok, ih]
  | case3 name attrs children rest ih1 ih2 =>
      simp [nodes_ok, ih1, ih2, Bool.and_assoc]

theorem nodes_ok_clean (ns : List HtmlNode) : nodes_ok (clean_nodes ns) = true := by
  induction ns using clean_nodes.induct with
  | case1 => simp [clean_nodes, nodes_ok]
  | case2 s rest ih => simp [clean_nodes, nodes_ok, ih]
  | case3 name attrs children rest h ih1 ih2 =>
      simp only [clean_nodes, if_pos h, nodes_ok, ih1, ih2, Bool.and_true]
      simp [h, List.all_eq_true, List.mem_filter]
  | case4 name attrs children rest h ih1 ih2 =>
      simp [clean_nodes, if_neg h, nodes_ok_append, ih1, ih2]

/-- C4: `Post.save` applies `sanitize_html` to non-empty content, and the
stored content afterwards contains only allow-listed tags with allow-listed
attributes. -/
theorem post_save_sanitizes_content (now : Nat) (p : Post) :
    (post_save now p).content
      = (if p.content.isEmpty then p.content else sanitize_html p.content)
    ∧ nodes_ok (post_save now p).content = true := by
  have hc : (post_save now p).content
      = (if p.content.isEmpty then p.content else sanitize_html p.content) := by
    simp only [post_save]
    split <;> split <;> split <;> simp_all
  refine ⟨hc, ?_⟩
  rw [hc]
  by_cases h : p.content.isEmpty
  · rw [if_pos h, List.isEmpty_iff.mp h]
    simp [nodes_ok]
  · rw [if_neg h]
    exact nodes_ok_clean p.content

theorem char_toLower_idem (c : Char) : c.toLower.toLower = c.toLower := by
  simp only [Char.toLower]
  by_cases h : 65 ≤ c.toNat ∧ c.toNat ≤ 90
  · have hv : (Char.ofNat (c.toNat + 32)).toNat = c.toNat + 32 := by
      unfold Char.ofNat
      rw [dif_pos (Or.inl (by omega))]
      rfl
    rw [if_pos h, if_neg (by rw [hv]; omega)]
  · rw [if_neg h, if_neg h]

theorem tag_save_name (t : Tag) : (tag_save t).name = tag_normalize t.name := by
  simp only [tag_save]
  split <;> rfl

theorem tag_normalize_mem (s : List Char) :
    ∀ c ∈ tag_normalize s, c ≠ ' ' ∧ c ≠ '#' ∧ c.toLower = c := by
  intro c hc
  unfold tag_normalize py_remove_char py_lower at hc
  have h1 := List.mem_filter.mp hc
  have h2 := List.mem_filter.mp h1.1
  obtain ⟨a, _, rfl⟩ := List.mem_map.mp h2.1
  exact ⟨by simpa using h2.2, by simpa using h1.2, char_toLower_idem a⟩

theorem tag_normalize_idem (s : List Char) :
    tag_normalize (tag_normalize s) = tag_normalize s := by
  have hmap : py_lower (tag_normalize s) = tag_normalize s := by
    unfold py_lower
    conv_rhs => rw [← List.map_id (tag_normalize s)]
    apply List.map_congr_left
    intro c hc
    exact (tag_normalize_mem s c hc).2.2
  show py_remove_char '#' (py_remove_char ' ' (py_lower (tag_normalize s)))
      = tag_normalize s
  rw [hmap]
  have r1 : py_remove_char ' ' (tag_normalize s) = tag_normalize s := by
    unfold py_remove_char
    apply List.filter_eq_self.mpr
    intro c hc
    simpa using (tag_normalize_mem s c hc).1
  rw [r1]
  unfold py_remove_char
  apply List.filter_eq_self.mpr
  intro c hc
  simpa using (tag_normalize_mem s c hc).2.1

/-- C10: after `Tag.save` the name is lowercase with no space and no `#`,
and saving an already-saved tag leaves the name unchanged. -/
theorem tag_save_normalizes (t : Tag) :
    (∀ c ∈ (tag_save t).name, c ≠ ' ' ∧ c ≠ '#' ∧ c.toLower = c)
    ∧ (tag_save (tag_save t)).name = (tag_save t).name := by
  constructor
  · intro c hc
    rw [tag_save_name] at hc
    exact tag_normalize_mem t.name c hc
  · rw [tag_save_name, tag_save_name t, tag_normalize_idem]

/-- C10 witness: concrete evaluation of both conjuncts on the tag `#B`. -/
theorem tag_save_normalizes_witness :
    ('b' ≠ ' ' ∧ 'b' ≠ '#' ∧ 'b'.toLower = 'b')
    ∧ (tag_save (tag_save ⟨['#', 'B'], []⟩)).name = (tag_save ⟨['#', 'B'], []⟩).name :=
  ⟨(tag_save_normalizes ⟨['#', 'B'], []⟩).1 'b' (by decide),
   (tag_save_normalizes ⟨['#', 'B'], []⟩).2⟩


/-- A published post used by concrete witnesses. -/
def post0 : Post :=
  { id := 1
    title := "Hello"
    slug := "hello"
    author := 1
    category := none
    content := [HtmlNode.text "hi"]
    excerpt := ""
    status := "published"
    featured_image := none
    video_link := none
    link_url := none
    link_title := none
    link_description := none
    link_image := none
    link_video := none
    meta_description := ""
    views := 0
    published_at := some 10 }

/-- A one-post database used by concrete witnesses. -/
def db0 : BlogDB := { posts := [post0], likes := [] }

/-- A draft post and its database, for the visibility witnesses. -/
def draftPost : Post := { post0 with id := 2, slug := "wip", status := "draft" }

def db1 : BlogDB := { posts := [draftPost], likes := [] }

/-- The posts table with one row's `views` bumped and nothing else touched
(specification expression for the frame property of `post_detail`). -/
def bump_views (pid : Nat) (posts : List Post) : List Post :=
  posts.map (fun q => if q.id = pid then { q with views := q.views + 1 } else q)

/-- C8: `post_list` returns only published posts, and `post_detail` answers
404 for the slug of any post that is not published (slugs being unique). -/
theorem drafts_not_public (db : BlogDB) (q : String) :
    (∀ p ∈ post_list db q, p.status = "published")
    ∧ (∀ p ∈ db.posts,
        (∀ p' ∈ db.posts, p'.slug = p.slug → p' = p) →
        p.status ≠ "published" →
        (post_detail db p.slug).1 = DetailResult.notFound) := by
  constructor
  · intro p hp
    unfold post_list at hp
    by_cases hq : q.isEmpty
    · rw [if_pos hq] at hp
      exact eq_of_beq (List.mem_filter.mp hp).2
    · rw [if_neg hq] at hp
      exact eq_of_beq (List.mem_filter.mp (List.mem_filter.mp hp).1).2
  · intro p hp huniq hstat
    unfold post_detail
    cases hfind : get_published db p.slug with
    | none => rfl
    | some p'' =>
        exfalso
        unfold get_published at hfind
        have hmem := List.mem_of_find?_eq_some hfind
        have hpred := List.find?_some hfind
        simp only [Bool.and_eq_true, beq_iff_eq] at hpred
        have hpp : p'' = p := huniq p'' hmem hpred.1
        rw [hpp] at hpred
        exact hstat hpred.2

/-- C8 witness: the draft post is invisible through `post_detail`. -/
theorem drafts_not_public_witness :
    (post_detail db1 "wip").1 = DetailResult.notFound :=
  (drafts_not_public db1 "").2 draftPost (by simp [db1])
    (by intro p' hp _; simpa [db1] using hp) (by decide)

/-- C9: a successful `post_detail` GET increments the found post's `views`
by one and persists only that field: the new table is the old one with just
that row's `views` bumped. -/
theorem post_detail_increments_views_only (db : BlogDB) (slug : String) (p : Post)
    (hids : (db.posts.map Post.id).Nodup)
    (hfind : get_published db slug = some p) :
    post_detail db slug =
      (DetailResult.page { p with views := p.views + 1 },
       { db with posts := bump_views p.id db.posts }) := by
  have hmem : p ∈ db.posts := List.mem_of_find?_eq_some hfind
  have hmap : save_update_views db.posts { p with views := p.views + 1 }
      = bump_views p.id db.posts := by
    unfold save_update_views bump_views
    apply List.map_congr_left
    intro q hq
    by_cases h : q.id = p.id
    · have hqp : q = p := List.inj_on_of_nodup_map hids hq hmem h
      subst hqp
      simp
    · simp [h]
  unfold post_detail
  rw [hfind]
  dsimp only
  rw [hmap]

/-- C9 witness: concrete evaluation on the one-post database. -/
theorem post_detail_increments_views_only_witness :
    post_detail db0 "hello" =
      (DetailResult.page { post0 with views := post0.views + 1 },
       { db0 with posts := bump_views post0.id db0.posts }) :=
  post_detail_increments_views_only db0 "hello" post0 (by simp [db0]) rfl

/-- C3: for a published post and a user who has not yet liked it, the first
`post_like` creates the like row and reports `liked = true`, and a second
`post_like` deletes it and reports `liked = false`, restoring the original
state. -/
theorem post_like_twice_unlikes (db : BlogDB) (slug : String) (uid : Nat) (p : Post)
    (hfind : get_published db slug = some p)
    (hnot : (p.id, uid) ∉ db.likes) :
    post_like db slug uid
      = some (true, { db with likes := db.likes ++ [(p.id, uid)] })
    ∧ (p.id, uid) ∈ ({ db with likes := db.likes ++ [(p.id, uid)] } : BlogDB).likes
    ∧ post_like { db with likes := db.likes ++ [(p.id, uid)] } slug uid
      = some (false, db) := by
  have hfind2 : get_published { db with likes := db.likes ++ [(p.id, uid)] } slug
      = some p := hfind
  have herase : (db.likes ++ [(p.id, uid)]).erase (p.id, uid) = db.likes := by
    rw [List.erase_append_right _ hnot, List.erase_cons_head]
    simp
  refine ⟨?_, by simp, ?_⟩
  · unfold post_like
    rw [hfind]
    dsimp only
    rw [if_neg hnot]
  · unfold post_like
    rw [hfind2]
    dsimp only
    rw [if_pos (by simp), herase]

/-- C3 witness: concrete double like on the one-post database. -/
theorem post_like_twice_unlikes_witness :
    post_like db0 "hello" 7
      = some (true, { db0 with likes := db0.likes ++ [(post0.id, 7)] })
    ∧ (post0.id, 7) ∈ ({ db0 with likes := db0.likes ++ [(post0.id, 7)] } : BlogDB).likes
    ∧ post_like { db0 with likes := db0.likes ++ [(post0.id, 7)] } "hello" 7
      = some (false, db0) :=
  post_like_twice_unlikes db0 "hello" 7 post0 rfl (by simp [db0])

/-- C7: when every `(post, user)` pair occurs at most once among the like
rows, it still does after any successful `post_like`. -/
theorem post_like_preserves_uniqueness (db : BlogDB) (slug : String) (uid : Nat)
    (h : ∀ x : Nat × Nat, db.likes.count x ≤ 1) :
    ∀ liked db', post_like db slug uid = some (liked, db') →
      ∀ x : Nat × Nat, db'.likes.count x ≤ 1 := by
  intro liked db' heq x
  unfold post_like at heq
  split at heq
  · cases heq
  · split at heq
    · cases heq
      exact le_trans ((List.erase_sublist _ _).count_le _) (h x)
    · next p hfind hmem =>
        cases heq
        rw [List.count_append]
        by_cases hx : x = (p.id, uid)
        · subst hx
          rw [List.count_eq_zero.mpr hmem]
          simp
        · have h1 : List.count x [(p.id, uid)] = 0 := by simp [hx]
          rw [h1]
          simpa using h x

/-- C7 witness: after a concrete like on the one-post database, the pair
`(1, 7)` still occurs at most once. -/
theorem post_like_preserves_uniqueness_witness :
    ({ db0 with likes := db0.likes ++ [(post0.id, 7)] } : BlogDB).likes.count (1, 7) ≤ 1 :=
  post_like_preserves_uniqueness db0 "hello" 7 (by intro y; simp [db0]) true
    { db0 with likes := db0.likes ++ [(post0.id, 7)] } rfl (1, 7)

/-- Valid cleaned form data used by the `post_edit` examples. -/
def ceForm : PostFormData :=
  { title := "new"
    category := none
    excerpt := ""
    content := []
    featured_image := none
    video_link := none
    link_url := none
    link_title := none
    link_description := none
    link_image := none
    meta_description := ""
    status := "draft" }

/-- C2 counterexample: a staff user (id 2) who is not the author (id 1)
edits the post through `post_edit`: the response is not 403 and the stored
title changes, so the post is modified. -/
theorem post_edit_nonowner_counterexample :
    (post_edit 0 db0 "hello" 2 true true (some ceForm) FetchOutcome.otherError).1
      ≠ EditResult.forbidden
    ∧ (post_edit 0 db0 "hello" 2 true true (some ceForm)
        FetchOutcome.otherError).2.posts.map Post.title
      ≠ db0.posts.map Post.title := by
  constructor
  · decide
  · decide

/-- C2 amended: a requester who is neither the post's author nor staff gets
403 from `post_edit` and the database is unchanged. -/
theorem post_edit_nonowner_forbidden (now : Nat) (db : BlogDB) (slug : String)
    (uid : Nat) (is_post : Bool) (form : Option PostFormData) (outcome : FetchOutcome)
    (p : Post) (hfind : get_post db slug = some p)
    (hauthor : p.author ≠ uid) :
    post_edit now db slug uid false is_post form outcome = (EditResult.forbidden, db) := by
  unfold post_edit
  rw [hfind]
  dsimp only
  rw [if_pos ⟨hauthor, by simp⟩]

/-- C2 witness: a non-author, non-staff user (id 2) is rejected. -/
theorem post_edit_nonowner_forbidden_witness :
    post_edit 0 db0 "hello" 2 false true (some ceForm) FetchOutcome.otherError
      = (EditResult.forbidden, db0) :=
  post_edit_nonowner_forbidden 0 db0 "hello" 2 true (some ceForm)
    FetchOutcome.otherError post0 rfl (by decide)

/-- C6: the fetch helper returns `None` on every exceptional outcome, the
API endpoint answers a 400 JSON error on an empty URL and whenever no
metadata was fetched, and it answers a success body exactly when metadata
was fetched. -/
theorem fetch_link_preview_total_api (rawUrl : String) (outcome : FetchOutcome) :
    ((∀ page, outcome ≠ FetchOutcome.ok page) →
      fetch_link_preview (py_strip rawUrl) outcome = none)
    ∧ ((py_strip rawUrl) = "" → fetch_link_preview_api rawUrl outcome = ApiResponse.jsonError 400)
    ∧ (fetch_link_preview (py_strip rawUrl) outcome = none →
        fetch_link_preview_api rawUrl outcome = ApiResponse.jsonError 400)
    ∧ ((∃ m, fetch_link_preview_api rawUrl outcome = ApiResponse.jsonSuccess m) ↔
        ((py_strip rawUrl) ≠ "" ∧ ∃ m, fetch_link_preview (py_strip rawUrl) outcome = some m)) := by
  refine ⟨?_, ?_, ?_, ?_⟩
  · intro hno
    cases outcome with
    | ok page => exact absurd rfl (hno page)
    | timeout => rfl
    | requestError => rfl
    | otherError => rfl
  · intro h
    unfold fetch_link_preview_api
    rw [if_pos (by rw [h]; rfl)]
  · intro h
    unfold fetch_link_preview_api
    by_cases he : (py_strip rawUrl).isEmpty
    · rw [if_pos he]
    · rw [if_neg he, h]
  · constructor
    · rintro ⟨m, hm⟩
      unfold fetch_link_preview_api at hm
      by_cases he : (py_strip rawUrl).isEmpty
      · rw [if_pos he] at hm
        cases hm
      · rw [if_neg he] at hm
        refine ⟨fun hh => he (by rw [hh]; rfl), ?_⟩
        cases hf : fetch_link_preview (py_strip rawUrl) outcome with
        | none => rw [hf] at hm; cases hm
        | some m' => exact ⟨m', rfl⟩
    · rintro ⟨hne, m, hm⟩
      unfold fetch_link_preview_api
      rw [if_neg (fun hh => hne ((String.isEmpty_iff _).mp hh)), hm]
      exact ⟨m, rfl⟩

/-- C6 witness: timeout on an empty submitted URL. -/
theorem fetch_link_preview_total_api_witness :
    fetch_link_preview "" FetchOutcome.timeout = none
    ∧ fetch_link_preview_api "" FetchOutcome.timeout = ApiResponse.jsonError 400 :=
  ⟨(fetch_link_preview_total_api "" FetchOutcome.timeout).1
      (fun _ h => FetchOutcome.noConfusion h),
   (fetch_link_preview_total_api "" FetchOutcome.timeout).2.1 rfl⟩


/-- A user with MFA enabled, and an empty auth state, for the witnesses. -/
def mfaUser : AccountUser :=
  { id := 5, mfa_enabled := true, has_device := false, has_confirmed_device := true }

def st0 : AuthState := { cache := ⟨none⟩, pre_otp_user_id := none, logged_in := none }

/-- C5: `login_view` never logs in a user with MFA directly — on a
successful password check it only stores the pre-OTP user id and redirects
to OTP verification — and `otp_verify_view` logs a user in only when a
confirmed TOTP device exists and the token verifies. -/
theorem mfa_requires_otp (now : Nat) (is_post form_valid : Bool) (u : AccountUser)
    (st : AuthState) (hli : st.logged_in = none)
    (hmfa : (u.mfa_enabled || u.has_device) = true) :
    ((login_view now is_post form_valid (some u) st).2.logged_in = none
      ∧ (is_post = true → form_valid = true → cache_get now st.cache < 5 →
          login_view now is_post form_valid (some u) st
            = (LoginResponse.redirectOtpVerify, { st with pre_otp_user_id := some u.id })))
    ∧ (∀ (users : List AccountUser) (ip2 fv2 vok : Bool) (st2 : AuthState) (uid : Nat),
        st2.logged_in = none →
        (otp_verify_view users ip2 fv2 vok st2).2.logged_in = some uid →
        st2.pre_otp_user_id = some uid
          ∧ ∃ user ∈ users, user.id = uid ∧ user.has_confirmed_device = true
              ∧ vok = true ∧ ip2 = true ∧ fv2 = true) := by
  refine ⟨⟨?_, ?_⟩, ?_⟩
  · unfold login_view
    dsimp only
    repeat' split
    all_goals simp_all
  · intro hp hf hlt
    subst hp
    subst hf
    have hge : ¬(5 ≤ cache_get now st.cache) := Nat.not_le.mpr hlt
    unfold login_view
    dsimp only
    repeat' split
    all_goals simp_all
  · intro users ip2 fv2 vok st2 uid hli2 hlog
    unfold otp_verify_view at hlog
    split at hlog
    · rw [hli2] at hlog
      cases hlog
    · next uid' hpre =>
        cases hfind : users.find? (fun u => u.id == uid') with
        | none =>
            rw [hfind] at hlog
            dsimp only at hlog
            rw [hli2] at hlog
            cases hlog
        | some user =>
            rw [hfind] at hlog
            dsimp only at hlog
            have hmem := List.mem_of_find?_eq_some hfind
            have hbeq := List.find?_some hfind
            have hid : user.id = uid' := eq_of_beq hbeq
            split at hlog
            · next hpf =>
                split at hlog
                · next hcv =>
                    dsimp only at hlog
                    have huid : user.id = uid := Option.some.inj hlog
                    simp only [Bool.and_eq_true] at hcv hpf
                    refine ⟨?_, user, hmem, huid, hcv.1, hcv.2, hpf.1, hpf.2⟩
                    rw [hpre, ← hid, huid]
                · rw [hli2] at hlog
                  cases hlog
            · rw [hli2] at hlog
              cases hlog

/-- C5 witness: an MFA user authenticating with correct credentials is
redirected to OTP verification without being logged in. -/
theorem mfa_requires_otp_witness :
    (login_view 0 true true (some mfaUser) st0).2.logged_in = none
    ∧ login_view 0 true true (some mfaUser) st0
        = (LoginResponse.redirectOtpVerify, { st0 with pre_otp_user_id := some mfaUser.id }) :=
  ⟨(mfa_requires_otp 0 true true mfaUser st0 rfl rfl).1.1,
   (mfa_requires_otp 0 true true mfaUser st0 rfl rfl).1.2 rfl rfl (by decide)⟩

/-- The per-IP counter value is capped at 5 (whatever the read time). -/
def cache_le5 (c : Cache) : Prop :=
  ∀ v e, c.entry = some (v, e) → v ≤ 5

/-- One failed login POST (valid form, credentials rejected) through
`login_view`, viewed as its effect on the per-IP counter. -/
def failed_attempt (t : Nat) (c : Cache) : Cache :=
  (login_view t true true none { cache := c, pre_otp_user_id := none, logged_in := none }).2.cache

/-- The counter after five failed login POSTs at times `t1 ≤ ... ≤ t5`,
starting from an absent entry. -/
def five_failures (t1 t2 t3 t4 t5 : Nat) : Cache :=
  failed_attempt t5 (failed_attempt t4 (failed_attempt t3
    (failed_attempt t2 (failed_attempt t1 ⟨none⟩))))

/-- C1: once the per-IP counter reads at least 5, a login POST is rejected
with an error by `login_view` (state untouched, nobody logged in) and with
403 by `RateLimitMiddleware`; both keep the counter at most 5; and five
failed attempts within the 5-minute window drive the counter from absent to
exactly 5, so a sixth attempt inside the window is blocked. -/
theorem login_rate_limit :
    (∀ (now : Nat) (fv : Bool) (auth : Option AccountUser) (st : AuthState),
        st.logged_in = none → 5 ≤ cache_get now st.cache →
        login_view now true fv auth st = (LoginResponse.loginPageError, st))
    ∧ (∀ (now : Nat) (c : Cache), 5 ≤ cache_get now c →
        rate_limit_middleware true now true c = MwResult.forbidden)
    ∧ (∀ (now : Nat) (is_post fv : Bool) (auth : Option AccountUser) (st : AuthState),
        cache_le5 st.cache →
        cache_le5 (login_view now is_post fv auth st).2.cache)
    ∧ (∀ (now : Nat) (ilp : Bool) (c c' : Cache), cache_le5 c →
        rate_limit_middleware true now ilp c = MwResult.pass c' → cache_le5 c')
    ∧ (∀ t1 t2 t3 t4 t5 t6 : Nat,
        t1 ≤ t2 → t2 < t1 + 300 → t2 ≤ t3 → t3 < t2 + 300 →
        t3 ≤ t4 → t4 < t3 + 300 → t4 ≤ t5 → t5 < t4 + 300 →
        t5 ≤ t6 → t6 < t5 + 300 →
        cache_get t6 (five_failures t1 t2 t3 t4 t5) = 5
        ∧ ∀ (fv : Bool) (auth : Option AccountUser),
            login_view t6 true fv auth ⟨five_failures t1 t2 t3 t4 t5, none, none⟩
              = (LoginResponse.loginPageError,
                 ⟨five_failures t1 t2 t3 t4 t5, none, none⟩)) := by
  have viewBlocks : ∀ (now : Nat) (fv : Bool) (auth : Option AccountUser) (st : AuthState),
      st.logged_in = none → 5 ≤ cache_get now st.cache →
      login_view now true fv auth st = (LoginResponse.loginPageError, st) := by
    intro now fv auth st hli h5
    have hsome : st.logged_in.isSome = false := by rw [hli]; rfl
    unfold login_view
    dsimp only
    repeat' split
    all_goals simp_all
  have stepEq : ∀ (t : Nat) (c : Cache), cache_get t c < 5 →
      failed_attempt t c = cache_set t (cache_get t c + 1) := by
    intro t c hlt
    have hge : ¬(5 ≤ cache_get t c) := Nat.not_le.mpr hlt
    unfold failed_attempt login_view
    dsimp only
    repeat' split
    all_goals simp_all
  refine ⟨viewBlocks, ?_, ?_, ?_, ?_⟩
  · intro now c h5
    unfold rate_limit_middleware
    dsimp only
    rw [if_neg (by simp), if_pos rfl, if_pos h5]
  · intro now is_post fv auth st h
    unfold login_view
    dsimp only
    repeat' split
    all_goals intro v e he
    all_goals first
      | exact h v e he
      | (cases he <;> omega)
  · intro now ilp c c' h hpass
    unfold rate_limit_middleware at hpass
    rw [if_neg (by simp)] at hpass
    split at hpass
    · dsimp only at hpass
      split at hpass
      · cases hpass
      · next hge =>
          cases hpass
          intro v e he
          injection he with he1
          injection he1 with hv hee
          subst hv
          omega
    · cases hpass
      exact h
  · intro t1 t2 t3 t4 t5 t6 h12 h12w h23 h23w h34 h34w h45 h45w h56 h56w
    have g1 : cache_get t1 (⟨none⟩ : Cache) = 0 := rfl
    have s1 : failed_attempt t1 ⟨none⟩ = cache_set t1 1 := by
      rw [stepEq t1 ⟨none⟩ (by rw [g1]; omega), g1]
    have g2 : cache_get t2 (cache_set t1 1) = 1 := by
      simp [cache_get, cache_set, h12w]
    have s2 : failed_attempt t2 (cache_set t1 1) = cache_set t2 2 := by
      rw [stepEq t2 _ (by rw [g2]; omega), g2]
    have g3 : cache_get t3 (cache_set t2 2) = 2 := by
      simp [cache_get, cache_set, h23w]
    have s3 : failed_attempt t3 (cache_set t2 2) = cache_set t3 3 := by
      rw [stepEq t3 _ (by rw [g3]; omega), g3]
    have g4 : cache_get t4 (cache_set t3 3) = 3 := by
      simp [cache_get, cache_set, h34w]
    have s4 : failed_attempt t4 (cache_set t3 3) = cache_set t4 4 := by
      rw [stepEq t4 _ (by rw [g4]; omega), g4]
    have g5 : cache_get t5 (cache_set t4 4) = 4 := by
      simp [cache_get, cache_set, h45w]
    have s5 : failed_attempt t5 (cache_set t4 4) = cache_set t5 5 := by
      rw [stepEq t5 _ (by rw [g5]; omega), g5]
    have hfive : five_failures t1 t2 t3 t4 t5 = cache_set t5 5 := by
      unfold five_failures
      rw [s1, s2, s3, s4, s5]
    have g6 : cache_get t6 (five_failures t1 t2 t3 t4 t5) = 5 := by
      rw [hfive]
      simp [cache_get, cache_set, h56w]
    refine ⟨g6, ?_⟩
    intro fv auth
    exact viewBlocks t6 fv auth ⟨five_failures t1 t2 t3 t4 t5, none, none⟩ rfl (by rw [g6])

/-- C1 witness: concrete instances — a cache already at 5 forces the 403,
and five immediate failures drive the counter to 5 and block the sixth
attempt. -/
theorem login_rate_limit_witness :
    rate_limit_middleware true 0 true ⟨some (5, 10)⟩ = MwResult.forbidden
    ∧ cache_get 0 (five_failures 0 0 0 0 0) = 5
    ∧ login_view 0 true true none ⟨five_failures 0 0 0 0 0, none, none⟩
        = (LoginResponse.loginPageError, ⟨five_failures 0 0 0 0 0, none, none⟩) := by
  have h := login_rate_limit.2.2.2.2 0 0 0 0 0 0 (by omega) (by omega) (by omega)
    (by omega) (by omega) (by omega) (by omega) (by omega) (by omega) (by omega)
  exact ⟨login_rate_limit.2.1 0 ⟨some (5, 10)⟩ (by decide), h.1, h.2 true none⟩
